import Mathlib

/-!
Verification of the fee-adjustment decision engine of lndmanage
(src/lndmanage/lib/fee_setting.py, class FeeSetter).

The engine is pure arithmetic over per-channel data, so it is embedded
shallowly: Python floats become rationals (ℚ), dictionaries become
association lists or lookup functions, and the KeyError raised by a
missing fee-policy entry becomes an Option-valued result (none models
the whole computation aborting with an uncaught exception).
-/

/-- Per-channel data taken from the node channel listing
(fields of channel_data used by fee_rate_change): channel_point,
unbalancedness and capacity. -/
structure ChannelData where
  channel_point : ℕ
  unbalancedness : ℚ
  capacity : ℚ

/-- Per-channel forwarding statistics over the lookback window
(fields of channels_forwarding_stats read in fee_rate_change). -/
structure ChannelStats where
  flow_direction : ℚ
  fees_total : ℚ
  total_forwarding_in : ℚ
  total_forwarding_out : ℚ
  number_forwardings : ℕ

/-- A fee policy record as emitted by fee_rate_change for one channel. -/
structure FeePolicy where
  base_fee_msat : ℤ
  fee_rate : ℚ
  cltv : ℤ

/-- The all-zero statistics record that fee_rate_change substitutes for a
channel that is absent from the forwarding-statistics dictionary
(lines 83-89 of fee_setting.py). -/
def zeroStats : ChannelStats :=
  { flow_direction := 0
    fees_total := 0
    total_forwarding_in := 0
    total_forwarding_out := 0
    number_forwardings := 0 }

/-- Embedding of FeeSetter.factor_unbalancedness (fee_setting.py
lines 166-185): c = 1 + ub * rescale with rescale = 0.5, clamped to
[1 - c_max, 1 + c_max] with c_max = 0.50. -/
def factor_unbalancedness (ub : ℚ) : ℚ :=
  let c_max : ℚ := 50/100
  let rescale : ℚ := 1/2
  let c := 1 + ub * rescale
  if 1 < c then min c (1 + c_max) else max c (1 - c_max)

/-- Embedding of FeeSetter.factor_flow (fee_setting.py lines 187-204):
identical formula and clamp applied to the flow direction. -/
def factor_flow (flow : ℚ) : ℚ :=
  let c_max : ℚ := 1/2
  let rescale : ℚ := 1/2
  let c := 1 + flow * rescale
  if 1 < c then min c (1 + c_max) else max c (1 - c_max)

/-- Embedding of FeeSetter.factor_demand (fee_setting.py lines 206-231).
The first argument is self.time_interval_days; the capacity argument is
accepted but unused by the body, exactly as in the source (the
capacity-relative target is commented out there). -/
def factor_demand (time_interval_days : ℚ) (amount_out : ℚ) (capacity : ℚ) : ℚ :=
  let rate := amount_out / time_interval_days
  let c_min : ℚ := 1/4
  let c_max : ℚ := 1
  let rate_target : ℚ := 100000 / 7
  let c := c_min * (rate / rate_target - 1) + 1
  min c (1 + c_max)

/-- The per-channel body of FeeSetter.fee_rate_change (fee_setting.py
lines 82-144), given the looked-up statistics record (none when the
channel has no statistics), the channel data, the channel's current fee
rate, and min_fee_rate.  Returns the new fee rate of the emitted policy. -/
def newFeeRate (time_interval_days : ℚ) (channel_stats : Option ChannelStats)
    (channel_data : ChannelData) (fee_rate min_fee_rate : ℚ) : ℚ :=
  let flow := match channel_stats with
    | none => (0 : ℚ)
    | some s => s.flow_direction
  let total_forwarding_in := match channel_stats with
    | none => (0 : ℚ)
    | some s => s.total_forwarding_in
  let total_forwarding_out := match channel_stats with
    | none => (0 : ℚ)
    | some s => s.total_forwarding_out
  let total_forwarding := total_forwarding_in + total_forwarding_out
  let wgt_demand : ℚ := 12/10
  let wgt_ub : ℚ := 1
  let wgt_flow : ℚ := 6/10
  let fd := factor_demand time_interval_days total_forwarding_out channel_data.capacity
  let fu := factor_unbalancedness channel_data.unbalancedness
  let ff := factor_flow flow
  let wgt_flow := if total_forwarding = 0 then 0 else wgt_flow
  let weighted_change :=
    (wgt_ub * fu + wgt_flow * ff + wgt_demand * fd) / (wgt_ub + wgt_flow + wgt_demand)
  let weighted_change :=
    if fee_rate ≤ 2/1000000 then 1 + (weighted_change - 1) * 3 else weighted_change
  max min_fee_rate (fee_rate * weighted_change)

/-- Embedding of FeeSetter.fee_rate_change (fee_setting.py lines 64-164).
Channels are a list of (channel_id, channel_data) pairs in iteration
order; channel_fee_policies maps a channel_point to the current fee rate
(none when self.channel_fee_policies has no entry, in which case the
Python loop dies with an uncaught KeyError, modelled as a none result);
channels_forwarding_stats maps a channel_id to its optional statistics.
On success the result is the list of (channel_point, policy) pairs the
Python code accumulates in its channel_fee_policies dictionary. -/
def fee_rate_change (time_interval_days : ℚ) (channel_fee_policies : ℕ → Option ℚ)
    (channels : List (ℕ × ChannelData)) (channels_forwarding_stats : ℕ → Option ChannelStats)
    (base_fee_msat : ℤ) (cltv : ℤ) (min_fee_rate : ℚ) : Option (List (ℕ × FeePolicy)) :=
  match channels with
  | [] => some []
  | (channel_id, channel_data) :: rest =>
    match channel_fee_policies channel_data.channel_point with
    | none => none
    | some fee_rate =>
      let fee_rate_new := newFeeRate time_interval_days
        (channels_forwarding_stats channel_id) channel_data fee_rate min_fee_rate
      match fee_rate_change time_interval_days channel_fee_policies rest
          channels_forwarding_stats base_fee_msat cltv min_fee_rate with
      | none => none
      | some ps =>
        some ((channel_data.channel_point,
          { base_fee_msat := base_fee_msat, fee_rate := fee_rate_new, cltv := cltv }) :: ps)

/-- The weighted change multiplier written exactly as the specification
states it (spec section 4.2, steps 3-5): weights wgt_demand = 1.2,
wgt_ub = 1.0, wgt_flow = 0.6, with wgt_flow forced to 0 when the total
forwarding volume (in + out) is exactly zero.  Declared separately from
the source embedding so that the two can be compared. -/
def specWeightedChange (time_interval_days : ℚ) (channel_stats : Option ChannelStats)
    (channel_data : ChannelData) : ℚ :=
  let flow := match channel_stats with
    | none => (0 : ℚ)
    | some s => s.flow_direction
  let total_forwarding_in := match channel_stats with
    | none => (0 : ℚ)
    | some s => s.total_forwarding_in
  let total_forwarding_out := match channel_stats with
    | none => (0 : ℚ)
    | some s => s.total_forwarding_out
  let wgt_flow : ℚ := if total_forwarding_in + total_forwarding_out = 0 then 0 else 6/10
  (1 * factor_unbalancedness channel_data.unbalancedness + wgt_flow * factor_flow flow
      + (12/10) * factor_demand time_interval_days total_forwarding_out channel_data.capacity)
    / (1 + wgt_flow + 12/10)

/-- The clamped affine map that factor_unbalancedness computes. -/
lemma factor_unbalancedness_eq_clamp (ub : ℚ) :
    factor_unbalancedness ub = max (1/2) (min (1 + ub * (1/2)) (3/2)) := by
  have e : factor_unbalancedness ub
      = if 1 < 1 + ub * (1/2) then min (1 + ub * (1/2)) (3/2)
        else max (1 + ub * (1/2)) (1/2) := by
    show (if 1 < 1 + ub * (1/2) then min (1 + ub * (1/2)) (1 + 50/100)
      else max (1 + ub * (1/2)) (1 - 50/100)) = _
    norm_num
  rw [e]
  by_cases h : 1 < 1 + ub * (1/2)
  · rw [if_pos h, max_eq_right (le_min (by linarith) (by norm_num))]
  · have h' := not_lt.mp h
    rw [if_neg h, min_eq_left (by linarith), max_comm]

/-- The clamped affine map that factor_flow computes. -/
lemma factor_flow_eq_clamp (flow : ℚ) :
    factor_flow flow = max (1/2) (min (1 + flow * (1/2)) (3/2)) := by
  have e : factor_flow flow
      = if 1 < 1 + flow * (1/2) then min (1 + flow * (1/2)) (3/2)
        else max (1 + flow * (1/2)) (1/2) := by
    show (if 1 < 1 + flow * (1/2) then min (1 + flow * (1/2)) (1 + 1/2)
      else max (1 + flow * (1/2)) (1 - 1/2)) = _
    norm_num
  rw [e]
  by_cases h : 1 < 1 + flow * (1/2)
  · rw [if_pos h, max_eq_right (le_min (by linarith) (by norm_num))]
  · have h' := not_lt.mp h
    rw [if_neg h, min_eq_left (by linarith), max_comm]

/-- Claim C3: for every ub in [-1, 1] and every flow in [-1, 1],
factor_unbalancedness ub and factor_flow flow lie in [0.5, 1.5], each
function is monotonic non-decreasing on [-1, 1], and each returns
exactly 1.0 on input 0. -/
theorem claim_C3_factor_range_mono :
    (∀ ub : ℚ, -1 ≤ ub → ub ≤ 1 →
      1/2 ≤ factor_unbalancedness ub ∧ factor_unbalancedness ub ≤ 3/2) ∧
    (∀ a b : ℚ, -1 ≤ a → a ≤ b → b ≤ 1 →
      factor_unbalancedness a ≤ factor_unbalancedness b) ∧
    factor_unbalancedness 0 = 1 ∧
    (∀ fl : ℚ, -1 ≤ fl → fl ≤ 1 →
      1/2 ≤ factor_flow fl ∧ factor_flow fl ≤ 3/2) ∧
    (∀ a b : ℚ, -1 ≤ a → a ≤ b → b ≤ 1 → factor_flow a ≤ factor_flow b) ∧
    factor_flow 0 = 1 := by
  refine ⟨?_, ?_, ?_, ?_, ?_, ?_⟩
  · intro ub _ _
    rw [factor_unbalancedness_eq_clamp]
    exact ⟨le_max_left _ _, max_le (by norm_num) (min_le_right _ _)⟩
  · intro a b _ hab _
    rw [factor_unbalancedness_eq_clamp, factor_unbalancedness_eq_clamp]
    exact max_le_max le_rfl (min_le_min (by linarith) le_rfl)
  · rw [factor_unbalancedness_eq_clamp]
    norm_num [min_def, max_def]
  · intro fl _ _
    rw [factor_flow_eq_clamp]
    exact ⟨le_max_left _ _, max_le (by norm_num) (min_le_right _ _)⟩
  · intro a b _ hab _
    rw [factor_flow_eq_clamp, factor_flow_eq_clamp]
    exact max_le_max le_rfl (min_le_min (by linarith) le_rfl)
  · rw [factor_flow_eq_clamp]
    norm_num [min_def, max_def]

/-- Witness for claim C3 at concrete inputs in [-1, 1]. -/
theorem claim_C3_factor_range_mono_witness :
    (1/2 ≤ factor_unbalancedness (-3/4) ∧ factor_unbalancedness (-3/4) ≤ 3/2) ∧
    factor_unbalancedness (-1/2) ≤ factor_unbalancedness (1/2) ∧
    (1/2 ≤ factor_flow (3/4) ∧ factor_flow (3/4) ≤ 3/2) ∧
    factor_flow (-1/4) ≤ factor_flow (1/4) :=
  ⟨claim_C3_factor_range_mono.1 (-3/4) (by norm_num) (by norm_num),
   claim_C3_factor_range_mono.2.1 (-1/2) (1/2) (by norm_num) (by norm_num) (by norm_num),
   claim_C3_factor_range_mono.2.2.2.1 (3/4) (by norm_num) (by norm_num),
   claim_C3_factor_range_mono.2.2.2.2.1 (-1/4) (1/4) (by norm_num) (by norm_num) (by norm_num)⟩

/-- Claim C4: for every amount_out ≥ 0 and lookback window > 0,
factor_demand is at most 2.0, factor_demand at amount_out = 0 is exactly
0.75, and the result is the linear expression
0.25 * ((amount_out / lookback_days) / (100000 / 7) - 1) + 1 clamped
from above by 2.0 with no lower bound enforced. -/
theorem claim_C4_factor_demand_clamp :
    (∀ amount_out capacity lookback_days : ℚ, 0 ≤ amount_out → 0 < lookback_days →
      factor_demand lookback_days amount_out capacity ≤ 2) ∧
    (∀ capacity lookback_days : ℚ, 0 < lookback_days →
      factor_demand lookback_days 0 capacity = 3/4) ∧
    (∀ amount_out capacity lookback_days : ℚ,
      factor_demand lookback_days amount_out capacity
        = min ((1/4) * ((amount_out / lookback_days) / (100000/7) - 1) + 1) 2) := by
  have key : ∀ a cap d : ℚ,
      factor_demand d a cap = min ((1/4) * ((a / d) / (100000/7) - 1) + 1) 2 := by
    intro a cap d
    show min ((1/4) * (a / d / (100000/7) - 1) + 1) (1 + 1) = _
    norm_num
  refine ⟨?_, ?_, fun a cap d => key a cap d⟩
  · intro a cap d _ _
    rw [key]
    exact min_le_right _ _
  · intro cap d _
    rw [key]
    norm_num [min_def]

/-- Witness for claim C4 at concrete inputs. -/
theorem claim_C4_factor_demand_clamp_witness :
    factor_demand 7 300000 1000000 ≤ 2 ∧ factor_demand 7 0 1000000 = 3/4 :=
  ⟨claim_C4_factor_demand_clamp.1 300000 1000000 7 (by norm_num) (by norm_num),
   claim_C4_factor_demand_clamp.2.1 1000000 7 (by norm_num)⟩

/-- The source computation rewritten through the specification's weighted
change: shared bridge between the composition and amplification claims. -/
lemma newFeeRate_eq_specWC (tid : ℚ) (st : Option ChannelStats) (cd : ChannelData)
    (fr m : ℚ) :
    newFeeRate tid st cd fr m
      = max m (fr * (if fr ≤ 2/1000000
          then 1 + (specWeightedChange tid st cd - 1) * 3
          else specWeightedChange tid st cd)) := rfl

/-- Claim C5: for every channel, the weighted change used by the code is
(wgt_ub * factor_unbalancedness + wgt_flow * factor_flow +
wgt_demand * factor_demand) / (wgt_ub + wgt_flow + wgt_demand) with
wgt_demand = 1.2, wgt_ub = 1.0, wgt_flow = 0.6, except that wgt_flow is 0
exactly when total forwarding (in + out) is zero: the emitted fee rate is
the current rate times that multiplier (amplified on tiny current rates),
floored at min_fee_rate. -/
theorem claim_C5_weighted_change_formula (tid : ℚ) (st : Option ChannelStats)
    (cd : ChannelData) (fr m : ℚ) :
    newFeeRate tid st cd fr m
      = max m (fr * (if fr ≤ 2/1000000
          then 1 + (specWeightedChange tid st cd - 1) * 3
          else specWeightedChange tid st cd)) :=
  newFeeRate_eq_specWC tid st cd fr m

/-- Claim C6: the deviation from neutral of the weighted change is
rescaled by 3 exactly when the channel's current fee rate is at most
2e-6; above that threshold no rescaling occurs. -/
theorem claim_C6_small_fee_amplification (tid : ℚ) (st : Option ChannelStats)
    (cd : ChannelData) (fr m : ℚ) :
    (fr ≤ 2/1000000 →
      newFeeRate tid st cd fr m
        = max m (fr * (1 + (specWeightedChange tid st cd - 1) * 3))) ∧
    (2/1000000 < fr →
      newFeeRate tid st cd fr m = max m (fr * specWeightedChange tid st cd)) := by
  constructor
  · intro h
    rw [newFeeRate_eq_specWC, if_pos h]
  · intro h
    rw [newFeeRate_eq_specWC, if_neg (not_le.mpr h)]

/-- Witness for claim C6: one channel below the 2e-6 threshold and one
above it. -/
theorem claim_C6_small_fee_amplification_witness :
    newFeeRate 7 none ⟨5, 0, 1000000⟩ (1/1000000) (4/1000000)
      = max (4/1000000)
          ((1/1000000) * (1 + (specWeightedChange 7 none ⟨5, 0, 1000000⟩ - 1) * 3)) ∧
    newFeeRate 7 none ⟨5, 0, 1000000⟩ (1/10000) (4/1000000)
      = max (4/1000000) ((1/10000) * specWeightedChange 7 none ⟨5, 0, 1000000⟩) :=
  ⟨(claim_C6_small_fee_amplification 7 none ⟨5, 0, 1000000⟩ (1/1000000) (4/1000000)).1
      (by norm_num),
   (claim_C6_small_fee_amplification 7 none ⟨5, 0, 1000000⟩ (1/10000) (4/1000000)).2
      (by norm_num)⟩

/-- Claim C1: every policy emitted by fee_rate_change carries a fee rate
of at least min_fee_rate, whatever the inputs. -/
theorem claim_C1_fee_rate_floor (tid : ℚ) (cfp : ℕ → Option ℚ)
    (channels : List (ℕ × ChannelData)) (stats : ℕ → Option ChannelStats)
    (b c : ℤ) (m : ℚ) (ps : List (ℕ × FeePolicy))
    (h : fee_rate_change tid cfp channels stats b c m = some ps) :
    ∀ p ∈ ps, m ≤ p.2.fee_rate := by
  induction channels generalizing ps with
  | nil =>
    rw [fee_rate_change] at h
    cases h
    intro p hp
    cases hp
  | cons hd tl ih =>
    obtain ⟨cid, cd⟩ := hd
    rw [fee_rate_change] at h
    cases hcf : cfp cd.channel_point with
    | none => rw [hcf] at h; cases h
    | some fr =>
      rw [hcf] at h
      cases hrec : fee_rate_change tid cfp tl stats b c m with
      | none => rw [hrec] at h; cases h
      | some ps' =>
        rw [hrec] at h
        cases h
        intro p hp
        cases hp with
        | head => exact le_max_left _ _
        | tail _ hp' => exact ih ps' hrec p hp'

/-- Concrete channel used in witnesses and counterexamples: channel_point
5, unbalancedness 0, capacity 1000000. -/
def cdW : ChannelData := ⟨5, 0, 1000000⟩

/-- Concrete current-fee-policy lookup: channel_point 5 has fee rate
0.000100, all other points are absent. -/
def cfpW : ℕ → Option ℚ := fun p => if p = 5 then some (1/10000) else none

/-- Concrete one-channel list. -/
def chansW : List (ℕ × ChannelData) := [(1, cdW)]

/-- Concrete statistics lookup with no data for any channel. -/
def statsW : ℕ → Option ChannelStats := fun _ => none

/-- Witness for claim C1 on a concrete run: min_fee_rate 0.000004 bounds
the emitted rate 19/220000. -/
theorem claim_C1_fee_rate_floor_witness :
    (4/1000000 : ℚ)
      ≤ ((5, ({ base_fee_msat := 40, fee_rate := 19/220000, cltv := 20 } : FeePolicy))
          : ℕ × FeePolicy).2.fee_rate :=
  claim_C1_fee_rate_floor 7 cfpW chansW statsW 40 20 (4/1000000)
    [(5, { base_fee_msat := 40, fee_rate := 19/220000, cltv := 20 })]
    (by norm_num [fee_rate_change, newFeeRate, factor_demand, factor_unbalancedness,
      factor_flow, cfpW, chansW, statsW, cdW])
    _ (by simp)

/-- Claim C2 counterexample: in the scenario ub = 0, flow = 0, total
forwarding = 0, current fee rate 0.000100, min_fee_rate 0.000004, the
code emits fee rate 19/220000 ≈ 0.0000864, not 0.000100 as the claim
states (factor_demand of an idle channel is 0.75, not neutral). -/
theorem claim_C2_counterexample :
    fee_rate_change 7 cfpW chansW statsW 40 20 (4/1000000)
      = some [(5, { base_fee_msat := 40, fee_rate := 19/220000, cltv := 20 })] ∧
    (19/220000 : ℚ) ≠ 1/10000 := by
  constructor
  · norm_num [fee_rate_change, newFeeRate, factor_demand, factor_unbalancedness,
      factor_flow, cfpW, chansW, statsW, cdW]
  · norm_num

/-- Claim C2 amended: in that scenario the weighted change is 19/22
(the zero-demand factor 0.75 drags it below 1) and the emitted fee rate
is 19/220000. -/
theorem claim_C2_amended_scenario :
    specWeightedChange 7 none cdW = 19/22 ∧
    fee_rate_change 7 cfpW chansW statsW 40 20 (4/1000000)
      = some [(5, { base_fee_msat := 40, fee_rate := 19/220000, cltv := 20 })] := by
  constructor
  · norm_num [specWeightedChange, factor_demand, factor_unbalancedness, factor_flow, cdW]
  · norm_num [fee_rate_change, newFeeRate, factor_demand, factor_unbalancedness,
      factor_flow, cfpW, chansW, statsW, cdW]

/-- A channel with no statistics record computes the same new fee rate as
one carrying an explicit all-zero record. -/
lemma newFeeRate_none_eq_zeroStats (tid : ℚ) (cd : ChannelData) (fr m : ℚ) :
    newFeeRate tid none cd fr m = newFeeRate tid (some zeroStats) cd fr m := rfl

/-- When every channel's channel_point has a current fee policy, the
computation succeeds and emits exactly one policy per channel. -/
lemma fee_rate_change_length (tid : ℚ) (cfp : ℕ → Option ℚ)
    (channels : List (ℕ × ChannelData)) (stats : ℕ → Option ChannelStats)
    (b c : ℤ) (m : ℚ)
    (hall : ∀ p ∈ channels, (cfp p.2.channel_point).isSome) :
    Option.map List.length (fee_rate_change tid cfp channels stats b c m)
      = some channels.length := by
  induction channels with
  | nil => rfl
  | cons hd tl ih =>
    obtain ⟨cid, cd⟩ := hd
    have hhd : (cfp cd.channel_point).isSome := hall (cid, cd) (List.mem_cons_self _ _)
    have htl := ih (fun p hp => hall p (List.mem_cons_of_mem _ hp))
    rw [fee_rate_change]
    cases hcf : cfp cd.channel_point with
    | none => rw [hcf] at hhd; cases hhd
    | some fr =>
      cases hrec : fee_rate_change tid cfp tl stats b c m with
      | none => rw [hrec] at htl; cases htl
      | some ps =>
        rw [hrec] at htl
        have hlen : ps.length = tl.length := by
          simpa using htl
        show some (ps.length + 1) = some (tl.length + 1)
        rw [hlen]

/-- Claim C7: a channel absent from the forwarding-statistics mapping is
processed without failure exactly as if it carried an explicit all-zero
statistics record: replacing one channel's missing record by the zero
record leaves the whole output unchanged, and when every channel has a
current fee policy the computation with the missing record succeeds. -/
theorem claim_C7_missing_stats_is_zero (tid : ℚ) (cfp : ℕ → Option ℚ)
    (channels : List (ℕ × ChannelData)) (stats : ℕ → Option ChannelStats)
    (cid : ℕ) (b c : ℤ) (m : ℚ) :
    fee_rate_change tid cfp channels (Function.update stats cid none) b c m
      = fee_rate_change tid cfp channels (Function.update stats cid (some zeroStats)) b c m ∧
    ((∀ p ∈ channels, (cfp p.2.channel_point).isSome) →
      (fee_rate_change tid cfp channels (Function.update stats cid none) b c m).isSome) := by
  constructor
  · induction channels with
    | nil => rfl
    | cons hd tl ih =>
      obtain ⟨cid', cd⟩ := hd
      rw [fee_rate_change, fee_rate_change]
      cases hcf : cfp cd.channel_point with
      | none => rfl
      | some fr =>
        have hstat : newFeeRate tid (Function.update stats cid none cid') cd fr m
            = newFeeRate tid (Function.update stats cid (some zeroStats) cid') cd fr m := by
          by_cases hc : cid' = cid
          · subst hc
            rw [Function.update_same, Function.update_same]
            exact newFeeRate_none_eq_zeroStats tid cd fr m
          · rw [Function.update_noteq hc, Function.update_noteq hc]
        simp only [hstat, ih]
  · intro hall
    have h := fee_rate_change_length tid cfp channels (Function.update stats cid none)
      b c m hall
    cases hres : fee_rate_change tid cfp channels (Function.update stats cid none) b c m with
    | none => rw [hres] at h; cases h
    | some ps => rfl

/-- Witness for claim C7 on a concrete run with the statistics entry of
channel 1 removed. -/
theorem claim_C7_missing_stats_is_zero_witness :
    fee_rate_change 7 cfpW chansW (Function.update statsW 1 none) 40 20 (4/1000000)
      = fee_rate_change 7 cfpW chansW (Function.update statsW 1 (some zeroStats))
          40 20 (4/1000000) ∧
    (fee_rate_change 7 cfpW chansW (Function.update statsW 1 none) 40 20
        (4/1000000)).isSome :=
  ⟨(claim_C7_missing_stats_is_zero 7 cfpW chansW statsW 1 40 20 (4/1000000)).1,
   (claim_C7_missing_stats_is_zero 7 cfpW chansW statsW 1 40 20 (4/1000000)).2
      (by decide)⟩

/-- Concrete statistics lookup with activity on every channel (used to
exercise the demand factor with a negative lookback window). -/
def statsActive : ℕ → Option ChannelStats :=
  fun _ => some ⟨1/2, 1000, 2000, 3000, 4⟩

/-- Claim C8 counterexample: with a negative lookback window of -7 days
the code performs no validation and raises no ConfigurationError: it
happily produces a policy for the channel (rate 2641/28000000), so the
claim that no channel policies are produced is false. -/
theorem claim_C8_counterexample :
    fee_rate_change (-7) cfpW chansW statsActive 40 20 (4/1000000)
      = some [(5, { base_fee_msat := 40, fee_rate := 2641/28000000, cltv := 20 })] := by
  norm_num [fee_rate_change, newFeeRate, factor_demand, factor_unbalancedness,
    factor_flow, cfpW, chansW, statsActive, cdW]

/-- Claim C8 amended: the code never checks the lookback window; for a
negative window the computation proceeds and emits one policy per
channel whenever every channel_point has a current policy (there is no
ConfigurationError anywhere in fee_setting.py). -/
theorem claim_C8_amended_no_validation (tid : ℚ) (cfp : ℕ → Option ℚ)
    (channels : List (ℕ × ChannelData)) (stats : ℕ → Option ChannelStats)
    (b c : ℤ) (m : ℚ) (hneg : tid < 0)
    (hall : ∀ p ∈ channels, (cfp p.2.channel_point).isSome) :
    Option.map List.length (fee_rate_change tid cfp channels stats b c m)
      = some channels.length :=
  fee_rate_change_length tid cfp channels stats b c m hall

/-- Witness for the amended claim C8 at lookback -7. -/
theorem claim_C8_amended_no_validation_witness :
    Option.map List.length (fee_rate_change (-7) cfpW chansW statsW 40 20 (4/1000000))
      = some chansW.length :=
  claim_C8_amended_no_validation (-7) cfpW chansW statsW 40 20 (4/1000000)
    (by norm_num) (by decide)

/-- A second concrete channel, channel_point 6, unbalancedness 0.5. -/
def cdW2 : ChannelData := ⟨6, 1/2, 500000⟩

/-- Two channels where only channel_point 6 has a current fee policy. -/
def chans9 : List (ℕ × ChannelData) := [(1, cdW), (2, cdW2)]

/-- Current-policy lookup covering only channel_point 6. -/
def cfp9 : ℕ → Option ℚ := fun p => if p = 6 then some (1/10000) else none

/-- Claim C9 counterexample: channel 1's channel_point (5) has no entry
in the current fee-policy mapping while channel 2's (6) does; the whole
computation aborts (KeyError, modelled as none) and no policy at all is
returned for channel 2, so channels are not processed independently. -/
theorem claim_C9_counterexample :
    fee_rate_change 7 cfp9 chans9 statsW 40 20 (4/1000000) = none := by
  simp [fee_rate_change, cfp9, chans9, cdW]

/-- Claim C9 amended: the computation aborts, returning no policies at
all, exactly when some channel's channel_point is missing from the
current fee-policy mapping; the per-channel anomaly is thrown, not
reported, and the remaining channels' policies are lost. -/
theorem claim_C9_amended_abort (tid : ℚ) (cfp : ℕ → Option ℚ)
    (channels : List (ℕ × ChannelData)) (stats : ℕ → Option ChannelStats)
    (b c : ℤ) (m : ℚ) :
    fee_rate_change tid cfp channels stats b c m = none
      ↔ ∃ p ∈ channels, cfp p.2.channel_point = none := by
  induction channels with
  | nil => simp [fee_rate_change]
  | cons hd tl ih =>
    obtain ⟨cid, cd⟩ := hd
    rw [fee_rate_change]
    cases hcf : cfp cd.channel_point with
    | none =>
      simp only [List.mem_cons]
      constructor
      · intro _
        exact ⟨(cid, cd), Or.inl rfl, hcf⟩
      · intro _
        trivial
    | some fr =>
      cases hrec : fee_rate_change tid cfp tl stats b c m with
      | none =>
        simp only [List.mem_cons]
        constructor
        · intro _
          obtain ⟨p, hp, hpn⟩ := ih.mp hrec
          exact ⟨p, Or.inr hp, hpn⟩
        · intro _
          trivial
      | some ps =>
        simp only [List.mem_cons]
        constructor
        · intro h
          cases h
        · intro h
          obtain ⟨p, hp, hpn⟩ := h
          cases hp with
          | inl he =>
            rw [he] at hpn
            rw [hpn] at hcf
            cases hcf
          | inr hp' =>
            have : fee_rate_change tid cfp tl stats b c m = none :=
              ih.mpr ⟨p, hp', hpn⟩
            rw [this] at hrec
            cases hrec

/-- Current-policy lookup with no entries at all. -/
def cfpNone : ℕ → Option ℚ := fun _ => none

/-- Witness for the amended claim C9 on a concrete run: with no current
policy for channel_point 5 the computation returns nothing. -/
theorem claim_C9_amended_abort_witness :
    fee_rate_change 7 cfpNone chansW statsW 40 20 (4/1000000) = none :=
  (claim_C9_amended_abort 7 cfpNone chansW statsW 40 20 (4/1000000)).mpr
    ⟨(1, cdW), by simp [chansW], rfl⟩

/-- Agreement of two channel entries on everything except capacity:
same channel_id, same channel_point, same unbalancedness. -/
def ChanAgree (p q : ℕ × ChannelData) : Prop :=
  p.1 = q.1 ∧ p.2.channel_point = q.2.channel_point
    ∧ p.2.unbalancedness = q.2.unbalancedness

/-- Agreement of two optional statistics records on everything except
fees_total and number_forwardings. -/
def StatsAgree : Option ChannelStats → Option ChannelStats → Prop
  | none, none => True
  | some a, some b =>
    a.flow_direction = b.flow_direction
      ∧ a.total_forwarding_in = b.total_forwarding_in
      ∧ a.total_forwarding_out = b.total_forwarding_out
  | _, _ => False

/-- The per-channel fee rate is unchanged by the capacity, fees_total and
number_forwardings fields. -/
lemma newFeeRate_agree (tid : ℚ) (st1 st2 : Option ChannelStats)
    (cd1 cd2 : ChannelData) (fr m : ℚ) (hst : StatsAgree st1 st2)
    (hub : cd1.unbalancedness = cd2.unbalancedness) :
    newFeeRate tid st1 cd1 fr m = newFeeRate tid st2 cd2 fr m := by
  cases st1 with
  | none =>
    cases st2 with
    | none => simp only [newFeeRate, factor_demand, hub]
    | some t => exact absurd hst (by simp [StatsAgree])
  | some s =>
    cases st2 with
    | none => exact absurd hst (by simp [StatsAgree])
    | some t =>
      obtain ⟨h1, h2, h3⟩ := hst
      simp only [newFeeRate, factor_demand, hub, h1, h2, h3]

/-- Claim C10: the emitted policy mapping is insensitive to the capacity
values, the fees_total values and the number_forwardings values of the
inputs: two invocations agreeing on everything else return identical
results. -/
theorem claim_C10_noninterference (tid : ℚ) (cfp : ℕ → Option ℚ)
    (cs1 cs2 : List (ℕ × ChannelData)) (s1 s2 : ℕ → Option ChannelStats)
    (b c : ℤ) (m : ℚ) (hch : List.Forall₂ ChanAgree cs1 cs2)
    (hst : ∀ cid, StatsAgree (s1 cid) (s2 cid)) :
    fee_rate_change tid cfp cs1 s1 b c m = fee_rate_change tid cfp cs2 s2 b c m := by
  induction hch with
  | nil => rfl
  | @cons p q l1 l2 hpq hrest ih =>
    obtain ⟨cid1, cd1⟩ := p
    obtain ⟨cid2, cd2⟩ := q
    obtain ⟨hid, hpt, hub⟩ := hpq
    simp only at hid hpt hub
    subst hid
    rw [fee_rate_change, fee_rate_change, ← hpt]
    cases hcf : cfp cd1.channel_point with
    | none => rfl
    | some fr =>
      simp only [newFeeRate_agree tid (s1 cid1) (s2 cid1) cd1 cd2 fr m (hst cid1) hub, ih]

/-- Channel identical to cdW except for its capacity. -/
def cdB : ChannelData := ⟨5, 0, 777⟩

/-- Statistics lookup differing from statsB only in fees_total and
number_forwardings. -/
def statsA : ℕ → Option ChannelStats := fun _ => some ⟨1/2, 12345, 100, 200, 7⟩

/-- Statistics lookup differing from statsA only in fees_total and
number_forwardings. -/
def statsB : ℕ → Option ChannelStats := fun _ => some ⟨1/2, 999, 100, 200, 42⟩

/-- Witness for claim C10: capacity 1000000 vs 777, fees_total 12345 vs
999, number_forwardings 7 vs 42 give identical outputs. -/
theorem claim_C10_noninterference_witness :
    fee_rate_change 7 cfpW [(1, cdW)] statsA 40 20 (4/1000000)
      = fee_rate_change 7 cfpW [(1, cdB)] statsB 40 20 (4/1000000) :=
  claim_C10_noninterference 7 cfpW [(1, cdW)] [(1, cdB)] statsA statsB 40 20 (4/1000000)
    (List.Forall₂.cons ⟨rfl, rfl, rfl⟩ List.Forall₂.nil)
    (fun _ => ⟨rfl, rfl, rfl⟩)
